import Mathlib

/-!
Verification of the `rag_system` repository against its specification.

The Python sources are shallowly embedded:
  * `src/app/llm_wrapper.py`   → `generate_answer` (wall-clock generation time
    and the llama-cpp model are external inputs, passed as parameters);
  * `src/app/rag_engine.py`    → `query_rag`, `query_rag_debug` (the retriever
    and the language model are external collaborators, passed as functions);
  * `src/app/embedding_model.py` → `query_embedding` (sentence-transformer and
    chroma store passed as functions);
  * `src/app/financial_agent.py` → `BrokerAgent.answer` and its best-return
    scan (the filesystem of market CSV directories is passed as a function);
  * `src/agent/stock_agent.py` → `StockAgent.get_decision` (the JSON parsing
    step models Python json.loads on flat objects) and `StockAgent.place_order`.

Machine floats of the source are modelled as rationals (ℚ); every value the
claims touch is exactly representable. Wall-clock timing fields that claims do
not mention are omitted from the embedded records.
-/

/-! ### src/app/llm_wrapper.py -/

/-- Python str.split() counts maximal runs of non-whitespace characters.
The Bool argument tracks whether the previous character was inside a word. -/
def wordCountAux : List Char → Bool → Nat
  | [], _ => 0
  | c :: cs, inWord =>
    if c.isWhitespace then wordCountAux cs false
    else (if inWord then 0 else 1) + wordCountAux cs true

/-- `len(s.split())` from the source: number of whitespace-delimited words. -/
def pyWordCount (s : String) : Nat := wordCountAux s.toList false

/-- The record returned by `generate_answer` in src/app/llm_wrapper.py. -/
structure LlmResponse where
  text : String
  generation_time : ℚ
  input_tokens : Nat
  output_tokens : Nat
  total_tokens : Nat
  tokens_per_second : ℚ
deriving DecidableEq

/-- `generate_answer` from src/app/llm_wrapper.py.  The llama-cpp model is the
external function `llmText` (the `response["choices"][0]["text"]` it would
produce for the prompt) and the measured wall-clock `generationTime` is an
input.  Token counts are approximated by whitespace splitting, exactly as in
the source. -/
def generate_answer (llmText : String → String) (generationTime : ℚ)
    (prompt : String) : LlmResponse :=
  let input_tokens := pyWordCount prompt
  let output_text := llmText prompt
  let output_tokens := pyWordCount output_text
  { text := output_text
    generation_time := generationTime
    input_tokens := input_tokens
    output_tokens := output_tokens
    total_tokens := input_tokens + output_tokens
    tokens_per_second :=
      if 0 < generationTime then (output_tokens : ℚ) / generationTime else 0 }

/-! ### src/app/rag_engine.py -/

/-- The chroma query result consumed by the pipeline: `results["documents"]`
and `results["distances"]` (one inner list per query vector). -/
structure QueryResults where
  documents : List (List String)
  distances : List (List ℚ)
deriving DecidableEq

/-- `results["documents"][0] if results["documents"] else []` from
src/app/rag_engine.py (an empty outer list is falsy in Python). -/
def retrievedDocsOf (r : QueryResults) : List String :=
  match r.documents with
  | [] => []
  | d :: _ => d

/-- `results["distances"][0] if results["distances"] else []`. -/
def distancesOf (r : QueryResults) : List ℚ :=
  match r.distances with
  | [] => []
  | d :: _ => d

/-- The f-string prompt template of src/app/rag_engine.py. -/
def ragPrompt (context question : String) : String :=
  "Context:\n" ++ context ++ "\n\nQuestion: " ++ question ++ "\nAnswer:"

/-- `query_rag` from src/app/rag_engine.py.  `retrieve` stands for
`query_embedding`, `llm` for `generate_answer` with its model handle.
The source indexes `results["documents"][0]` without a guard, so an empty
outer list is a Python IndexError, modelled as `none`. -/
def query_rag (retrieve : String → QueryResults) (llm : String → LlmResponse)
    (question : String) : Option String :=
  let results := retrieve question
  match results.documents with
  | [] => none
  | docs :: _ =>
    let context := String.intercalate "\n\n" docs
    let prompt := ragPrompt context question
    some (llm prompt).text

/-- The debug record returned by `query_rag_debug` (wall-clock stage timings,
embedding metadata and the static process-steps list are omitted). -/
structure DebugTrace where
  question : String
  retrieved_documents : List String
  similarity_distances : List ℚ
  context : String
  prompt : String
  answer : String
  num_docs_retrieved : Nat
  context_length : Nat
  input_tokens : Nat
  output_tokens : Nat
  total_tokens : Nat
  tokens_per_second : ℚ
deriving DecidableEq

/-- `query_rag_debug` from src/app/rag_engine.py. -/
def query_rag_debug (retrieve : String → QueryResults)
    (llm : String → LlmResponse) (question : String) : DebugTrace :=
  let results := retrieve question
  let retrieved_docs := retrievedDocsOf results
  let distances := distancesOf results
  let context := String.intercalate "\n\n" retrieved_docs
  let prompt := ragPrompt context question
  let llm_response := llm prompt
  { question := question
    retrieved_documents := retrieved_docs
    similarity_distances := distances
    context := context
    prompt := prompt
    answer := llm_response.text
    num_docs_retrieved := retrieved_docs.length
    context_length := context.length
    input_tokens := llm_response.input_tokens
    output_tokens := llm_response.output_tokens
    total_tokens := llm_response.total_tokens
    tokens_per_second := llm_response.tokens_per_second }

/-- Joining an empty list of chunks yields the empty string. -/
theorem intercalate_blank_nil : String.intercalate "\n\n" ([] : List String) = "" := by
  decide

/-- C1: for every question and retrieval result, the debug context is the
retrieved chunk texts joined with a blank line in result order (empty when no
chunks were retrieved), and the prompt passed to the language model is the
deterministic template `Context:\n<context>\n\nQuestion: <question>\nAnswer:`. -/
theorem debug_context_and_prompt (retrieve : String → QueryResults)
    (llm : String → LlmResponse) (question : String) :
    (query_rag_debug retrieve llm question).context
      = String.intercalate "\n\n" (retrievedDocsOf (retrieve question))
    ∧ (retrievedDocsOf (retrieve question) = [] →
        (query_rag_debug retrieve llm question).context = "")
    ∧ (query_rag_debug retrieve llm question).prompt
      = "Context:\n" ++ (query_rag_debug retrieve llm question).context
        ++ "\n\nQuestion: " ++ question ++ "\nAnswer:"
    ∧ (query_rag_debug retrieve llm question).answer
      = (llm ((query_rag_debug retrieve llm question).prompt)).text := by
  refine ⟨rfl, ?_, rfl, rfl⟩
  intro h
  simp only [query_rag_debug, h]
  exact intercalate_blank_nil

/-- C1 witness: concrete evaluation with an empty retrieval. -/
theorem debug_context_and_prompt_witness :
    (query_rag_debug (fun _ => ⟨[], []⟩)
      (fun p => generate_answer (fun _ => "no") 1 p) "q").context = "" :=
  (debug_context_and_prompt (fun _ => ⟨[], []⟩)
    (fun p => generate_answer (fun _ => "no") 1 p) "q").2.1 rfl

/-- C7: tokens-per-second is output tokens over generation time when the time
is positive, and 0 when the time is ≤ 0 (no division happens then); token
counts are whitespace-delimited word counts. -/
theorem tokens_per_second_guard (llmText : String → String) (t : ℚ)
    (prompt : String) :
    (0 < t → (generate_answer llmText t prompt).tokens_per_second
        = ((generate_answer llmText t prompt).output_tokens : ℚ) / t)
    ∧ (t ≤ 0 → (generate_answer llmText t prompt).tokens_per_second = 0)
    ∧ (generate_answer llmText t prompt).output_tokens
        = pyWordCount (llmText prompt)
    ∧ (generate_answer llmText t prompt).input_tokens = pyWordCount prompt := by
  refine ⟨?_, ?_, rfl, rfl⟩
  · intro h
    simp [generate_answer, h]
  · intro h
    simp [generate_answer, not_lt.mpr h]

/-- C7 witness: concrete evaluations at a positive and a non-positive time. -/
theorem tokens_per_second_guard_witness :
    (generate_answer (fun _ => "hello world") 2 "a b c").tokens_per_second = 1
    ∧ (generate_answer (fun _ => "hello world") 0 "a b c").tokens_per_second
        = 0 := by
  constructor
  · have h := (tokens_per_second_guard (fun _ => "hello world") 2 "a b c").1
      (by norm_num)
    have hout : (generate_answer (fun _ => "hello world") 2 "a b c").output_tokens
        = 2 := by decide
    rw [h, hout]
    norm_num
  · exact (tokens_per_second_guard (fun _ => "hello world") 0 "a b c").2.1
      le_rfl

/-- The result shape the chroma store returns for a query against an empty
collection: one query vector, zero neighbours. -/
def emptyStoreResults : QueryResults := ⟨[[]], [[]]⟩

/-- C9: when the vector store holds no documents (the retriever returns the
empty-store shape), neither pipeline raises: `query_rag` returns the model
answer for the empty-context prompt, and the debug trace carries the empty
context with zero documents retrieved. -/
theorem empty_store_no_failure (retrieve : String → QueryResults)
    (llm : String → LlmResponse) (question : String)
    (h : retrieve question = emptyStoreResults) :
    query_rag retrieve llm question
      = some (llm (ragPrompt "" question)).text
    ∧ (query_rag_debug retrieve llm question).context = ""
    ∧ (query_rag_debug retrieve llm question).num_docs_retrieved = 0
    ∧ (query_rag_debug retrieve llm question).prompt
      = ragPrompt "" question := by
  refine ⟨?_, ?_, ?_, ?_⟩ <;>
    simp [query_rag, query_rag_debug, h, emptyStoreResults, retrievedDocsOf,
      distancesOf, intercalate_blank_nil]

/-- C9 witness: concrete empty store, concrete question. -/
theorem empty_store_no_failure_witness :
    query_rag (fun _ => emptyStoreResults)
        (fun p => generate_answer (fun _ => "n/a") 1 p) "q"
      = some (generate_answer (fun _ => "n/a") 1 (ragPrompt "" "q")).text :=
  (empty_store_no_failure (fun _ => emptyStoreResults)
    (fun p => generate_answer (fun _ => "n/a") 1 p) "q" rfl).1

/-! ### src/app/financial_agent.py — BrokerAgent -/

/-- A raw CSV row as read by pandas: `Date` and `Close` may fail to parse
(`errors='coerce'` turns bad dates into NaT; a missing close is NaN).  Dates
are modelled as day numbers. -/
structure RawRow where
  date : Option Nat
  close : Option ℚ
deriving DecidableEq

/-- A row surviving `df.dropna(subset=['Date', 'Close'])`. -/
structure Row where
  date : Nat
  close : ℚ
deriving DecidableEq

/-- `df.dropna(subset=['Date', 'Close'])`: keep only rows with both fields. -/
def dropnaRows (l : List RawRow) : List Row :=
  l.filterMap fun r =>
    match r.date, r.close with
    | some d, some c => some ⟨d, c⟩
    | _, _ => none

/-- Stable insertion of a row into a date-sorted list. -/
def insertByDate (r : Row) : List Row → List Row
  | [] => [r]
  | x :: xs => if x.date ≤ r.date then x :: insertByDate r xs else r :: x :: xs

/-- `df.sort_values('Date')`: sort rows ascending by date. -/
def sortByDate (l : List Row) : List Row := l.foldr insertByDate []

/-- `recent = df[df['Date'] >= pd.Timestamp(one_month_ago)]` applied after
dropna and the date sort; `cutoff` is the day number of `one_month_ago`
(`today - timedelta(days=30)` in the source). -/
def windowRows (cutoff : Nat) (raw : List RawRow) : List Row :=
  (sortByDate (dropnaRows raw)).filter fun r => cutoff ≤ r.date

/-- The per-symbol body of the scan loop in `BrokerAgent.answer`: skip the
symbol when fewer than 2 rows remain in the window, otherwise return
`(returnPct, startPrice, endPrice)` with
`returnPct = (end_price - start_price) / start_price * 100` taken from the
first and last window rows. -/
def symReturn (cutoff : Nat) (raw : List RawRow) : Option (ℚ × ℚ × ℚ) :=
  let recent := windowRows cutoff raw
  if recent.length < 2 then none
  else
    match recent.head?, recent.getLast? with
    | some f, some l => some ((l.close - f.close) / f.close * 100, f.close, l.close)
    | _, _ => none

/-- The running best of the scan: `best_symbol`, `best_return`, `best_start`,
`best_end` (the `none` accumulator models `best_symbol = None`,
`best_return = -inf`). -/
structure BestPick where
  symbol : String
  returnPct : ℚ
  startPrice : ℚ
  endPrice : ℚ
deriving DecidableEq

/-- One iteration of the `for fname in os.listdir(data_dir)` loop:
`if ret > best_return: update`. -/
def scanStep (cutoff : Nat) (acc : Option BestPick) (e : String × List RawRow) :
    Option BestPick :=
  match symReturn cutoff e.2 with
  | none => acc
  | some (r, sp, ep) =>
    match acc with
    | none => some ⟨e.1, r, sp, ep⟩
    | some b => if b.returnPct < r then some ⟨e.1, r, sp, ep⟩ else some b

/-- The whole scan over the directory listing (each entry is a CSV file name
without its `.csv` suffix paired with its parsed rows). -/
def bestScan (cutoff : Nat) (snaps : List (String × List RawRow)) :
    Option BestPick :=
  snaps.foldl (scanStep cutoff) none

/-- The `market_dirs` dictionary of `BrokerAgent.answer`. -/
def market_dirs : List (String × String) :=
  [("S&P 500", "SP500_data"), ("NASDAQ", "NASDAQ_data"),
   ("S&P 600", "SP600_data"), ("Dow Jones", "DOWJONES_data"),
   ("NYSE", "NYSE_data"), ("Crypto", "CRYPTO_data")]

/-- `market_dirs.get(market, 'SP500_data')`; `market` may be `None`. -/
def marketSubdir (market : Option String) : String :=
  ((market.bind fun m => market_dirs.lookup m)).getD "SP500_data"

/-- The outcome of `BrokerAgent.answer`: the no-data early return when the
market directory is missing, the best-pick answer, or the
insufficient-data apology (rendering of the English sentences around the
payload is presentation and is not modelled). -/
inductive BrokerOutcome where
  | noData
  | found (b : BestPick)
  | insufficient
deriving DecidableEq

/-- `BrokerAgent.answer` from src/app/financial_agent.py.  The filesystem is
the function `fs`: for a subdirectory name it yields `none` when
`os.path.isdir` is false, else the parsed `(symbol, rows)` listing. -/
def BrokerAgent.answer (fs : String → Option (List (String × List RawRow)))
    (cutoff : Nat) (market : Option String) : BrokerOutcome :=
  let subdir := marketSubdir market
  match fs subdir with
  | none => .noData
  | some snaps =>
    match bestScan cutoff snaps with
    | some b => .found b
    | none => .insufficient

/-- Entries whose window has fewer than 2 rows do not change the
accumulator. -/
theorem scanStep_skip (cutoff : Nat) (acc : Option BestPick)
    (e : String × List RawRow) (h : symReturn cutoff e.2 = none) :
    scanStep cutoff acc e = acc := by
  simp [scanStep, h]

/-- A valid entry replaces an empty accumulator. -/
theorem scanStep_none_acc (cutoff : Nat) (e : String × List RawRow)
    (r sp ep : ℚ) (h : symReturn cutoff e.2 = some (r, sp, ep)) :
    scanStep cutoff none e = some ⟨e.1, r, sp, ep⟩ := by
  simp [scanStep, h]

/-- A valid entry strictly above the current best replaces it. -/
theorem scanStep_improve (cutoff : Nat) (b : BestPick)
    (e : String × List RawRow) (r sp ep : ℚ)
    (h : symReturn cutoff e.2 = some (r, sp, ep)) (hlt : b.returnPct < r) :
    scanStep cutoff (some b) e = some ⟨e.1, r, sp, ep⟩ := by
  simp [scanStep, h, hlt]

/-- If every valid return in the list is at most the accumulator's, the
accumulator survives the fold. -/
theorem foldl_scanStep_preserve (cutoff : Nat) (b : BestPick)
    (l : List (String × List RawRow))
    (h : ∀ e ∈ l, ∀ p : ℚ × ℚ × ℚ, symReturn cutoff e.2 = some p →
      p.1 ≤ b.returnPct) :
    l.foldl (scanStep cutoff) (some b) = some b := by
  induction l with
  | nil => rfl
  | cons e l ih =>
    have hstep : scanStep cutoff (some b) e = some b := by
      unfold scanStep
      cases hsym : symReturn cutoff e.2 with
      | none => rfl
      | some p =>
        obtain ⟨r, sp, ep⟩ := p
        have hle : r ≤ b.returnPct := h e (List.mem_cons_self e l) (r, sp, ep) hsym
        simp [not_lt.mpr hle]
    rw [List.foldl_cons, hstep]
    exact ih fun e' he' p hp => h e' (List.mem_cons_of_mem e he') p hp

/-- If the accumulator's return (when present) is below `r` and every valid
return in the list is below `r`, the fold's result (when present) stays
below `r`. -/
theorem foldl_scanStep_lt (cutoff : Nat) (r : ℚ)
    (l : List (String × List RawRow)) (acc : Option BestPick)
    (hacc : ∀ b, acc = some b → b.returnPct < r)
    (hl : ∀ e ∈ l, ∀ p : ℚ × ℚ × ℚ, symReturn cutoff e.2 = some p → p.1 < r) :
    ∀ b, l.foldl (scanStep cutoff) acc = some b → b.returnPct < r := by
  induction l generalizing acc with
  | nil => exact fun b hb => hacc b hb
  | cons e l ih =>
    intro b hb
    rw [List.foldl_cons] at hb
    refine ih (scanStep cutoff acc e) ?_
      (fun e' he' p hp => hl e' (List.mem_cons_of_mem e he') p hp) b hb
    intro b' hb'
    unfold scanStep at hb'
    cases hsym : symReturn cutoff e.2 with
    | none =>
      rw [hsym] at hb'
      exact hacc b' hb'
    | some p =>
      obtain ⟨r', sp, ep⟩ := p
      have hr' : r' < r := hl e (List.mem_cons_self e l) (r', sp, ep) hsym
      rw [hsym] at hb'
      cases hcase : acc with
      | none =>
        rw [hcase] at hb'
        simp only [Option.some.injEq] at hb'
        rw [← hb']
        exact hr'
      | some b0 =>
        rw [hcase] at hb'
        by_cases hlt : b0.returnPct < r'
        · simp only [if_pos hlt, Option.some.injEq] at hb'
          rw [← hb']
          exact hr'
        · simp only [if_neg hlt, Option.some.injEq] at hb'
          rw [← hb']
          exact hacc b0 hcase

/-- C2: if a symbol's window return is strictly above the return of every
other symbol of the market with sufficient data, the scan returns exactly
that symbol together with its `returnPct = (lastClose - firstClose) /
firstClose * 100`, start price and end price. -/
theorem bestScan_strict_winner (cutoff : Nat)
    (l₁ l₂ : List (String × List RawRow)) (s : String) (rows : List RawRow)
    (r sp ep : ℚ)
    (hself : symReturn cutoff rows = some (r, sp, ep))
    (h₁ : ∀ e ∈ l₁, ∀ p : ℚ × ℚ × ℚ, symReturn cutoff e.2 = some p → p.1 < r)
    (h₂ : ∀ e ∈ l₂, ∀ p : ℚ × ℚ × ℚ, symReturn cutoff e.2 = some p → p.1 < r) :
    bestScan cutoff (l₁ ++ (s, rows) :: l₂) = some ⟨s, r, sp, ep⟩ := by
  unfold bestScan
  rw [List.foldl_append, List.foldl_cons]
  have hacc₁ : ∀ b, l₁.foldl (scanStep cutoff) none = some b → b.returnPct < r :=
    foldl_scanStep_lt cutoff r l₁ none (by intro b hb; cases hb) h₁
  have hmid : scanStep cutoff (l₁.foldl (scanStep cutoff) none) (s, rows)
      = some ⟨s, r, sp, ep⟩ := by
    cases hcase : l₁.foldl (scanStep cutoff) none with
    | none => exact scanStep_none_acc cutoff (s, rows) r sp ep hself
    | some b0 =>
      exact scanStep_improve cutoff b0 (s, rows) r sp ep hself (hacc₁ b0 hcase)
  rw [hmid]
  exact foldl_scanStep_preserve cutoff ⟨s, r, sp, ep⟩ l₂
    fun e he p hp => le_of_lt (h₂ e he p hp)

/-- The spec example, symbol A: two window rows with closes 100 then 110. -/
def exampleRowsA : List RawRow := [⟨some 10, some 100⟩, ⟨some 20, some 110⟩]

/-- The spec example, symbol B: two window rows with closes 50 then 48. -/
def exampleRowsB : List RawRow := [⟨some 10, some 50⟩, ⟨some 20, some 48⟩]

/-- Symbol A's window return: (110 − 100) / 100 · 100 = 10. -/
theorem symReturn_exampleA : symReturn 5 exampleRowsA = some (10, 100, 110) := by
  have hw : windowRows 5 exampleRowsA = [⟨10, 100⟩, ⟨20, 110⟩] := rfl
  rw [symReturn, hw]
  norm_num [List.head?, List.getLast?, List.getLast]

/-- Symbol B's window return: (48 − 50) / 50 · 100 = −4. -/
theorem symReturn_exampleB : symReturn 5 exampleRowsB = some (-4, 50, 48) := by
  have hw : windowRows 5 exampleRowsB = [⟨10, 50⟩, ⟨20, 48⟩] := rfl
  rw [symReturn, hw]
  norm_num [List.head?, List.getLast?, List.getLast]

/-- C2 witness — the A/B example of the spec: symbol A moves 100 → 110 inside
the window, symbol B moves 50 → 48, and the scan picks A with a return of
exactly 10 percent. -/
theorem bestScan_strict_winner_witness :
    bestScan 5 [("A", exampleRowsA), ("B", exampleRowsB)]
      = some ⟨"A", 10, 100, 110⟩ := by
  have h := bestScan_strict_winner 5 [] [("B", exampleRowsB)]
    "A" exampleRowsA 10 100 110
    symReturn_exampleA
    (by intro e he p hp; cases he)
    (by
      intro e he p hp
      have he' : e = ("B", exampleRowsB) := by
        cases he with
        | head => rfl
        | tail _ h2 => cases h2
      have hb : symReturn 5 e.2 = some ((-4 : ℚ), (50 : ℚ), (48 : ℚ)) := by
        rw [he']
        exact symReturn_exampleB
      rw [hb] at hp
      obtain rfl : ((-4 : ℚ), (50 : ℚ), (48 : ℚ)) = p := Option.some_inj.mp hp
      norm_num)
  exact h

/-- A symbol whose window has fewer than 2 rows yields no return. -/
theorem symReturn_insufficient (cutoff : Nat) (raw : List RawRow)
    (h : (windowRows cutoff raw).length < 2) : symReturn cutoff raw = none := by
  rw [symReturn]
  simp [h]

/-- A run of entries that all lack window data leaves the accumulator
untouched. -/
theorem foldl_scanStep_all_skip (cutoff : Nat)
    (l : List (String × List RawRow)) (acc : Option BestPick)
    (h : ∀ e ∈ l, symReturn cutoff e.2 = none) :
    l.foldl (scanStep cutoff) acc = acc := by
  induction l generalizing acc with
  | nil => rfl
  | cons e l ih =>
    rw [List.foldl_cons, scanStep_skip cutoff acc e (h e (List.mem_cons_self e l))]
    exact ih acc fun e' he' => h e' (List.mem_cons_of_mem e he')

/-- C4: a symbol with fewer than 2 rows dated inside the lookback window is
skipped — removing it from the directory listing does not change the scan
result at all — and when every symbol lacks window data, `BrokerAgent.answer`
returns the insufficient-data apology instead of raising. -/
theorem insufficient_data_handling :
    (∀ (cutoff : Nat) (l₁ l₂ : List (String × List RawRow)) (s : String)
        (rows : List RawRow), (windowRows cutoff rows).length < 2 →
        bestScan cutoff (l₁ ++ (s, rows) :: l₂) = bestScan cutoff (l₁ ++ l₂))
    ∧ (∀ (fs : String → Option (List (String × List RawRow))) (cutoff : Nat)
        (market : Option String) (snaps : List (String × List RawRow)),
        fs (marketSubdir market) = some snaps →
        (∀ e ∈ snaps, (windowRows cutoff e.2).length < 2) →
        BrokerAgent.answer fs cutoff market = .insufficient) := by
  constructor
  · intro cutoff l₁ l₂ s rows h
    unfold bestScan
    rw [List.foldl_append, List.foldl_append, List.foldl_cons,
      scanStep_skip cutoff _ (s, rows) (symReturn_insufficient cutoff rows h)]
  · intro fs cutoff market snaps hfs hall
    have hnone : bestScan cutoff snaps = none :=
      foldl_scanStep_all_skip cutoff snaps none fun e he =>
        symReturn_insufficient cutoff e.2 (hall e he)
    simp only [BrokerAgent.answer, hfs, hnone]

/-- C4 witness: a lone symbol with a single (would-be +900%) row inside the
window is skipped, and a market holding only that symbol gets the
insufficient-data answer. -/
theorem insufficient_data_handling_witness :
    bestScan 0 [("HI", [⟨some 5, some 1000⟩])] = bestScan 0 []
    ∧ BrokerAgent.answer
        (fun d => if d = "SP500_data" then some [("HI", [⟨some 5, some 1000⟩])]
          else none)
        0 none = .insufficient := by
  constructor
  · have h := insufficient_data_handling.1 0 [] [] "HI"
      [⟨some 5, some 1000⟩] (by decide)
    exact h
  · refine insufficient_data_handling.2 _ 0 none [("HI", [⟨some 5, some 1000⟩])]
      rfl ?_
    intro e he
    have he' : e = ("HI", [⟨some 5, some 1000⟩]) := by
      cases he with
      | head => rfl
      | tail _ h2 => cases h2
    rw [he']
    decide

/-- A key absent from an association list looks up to `none`. -/
theorem lookup_eq_none_of_forall_ne (l : List (String × String)) (a : String)
    (h : ∀ p ∈ l, p.1 ≠ a) : l.lookup a = none := by
  induction l with
  | nil => rfl
  | cons p l ih =>
    have hne : (a == p.1) = false :=
      beq_eq_false_iff_ne.mpr fun hh => h p (List.mem_cons_self p l) hh.symm
    simp only [List.lookup, hne]
    exact ih fun p' hp' => h p' (List.mem_cons_of_mem p hp')

/-- C10: for a `market` argument that is none of the six known market names
(including `None`), the broker agent silently uses the S&P 500 data
directory: its subdirectory is `SP500_data` and its whole behaviour equals
the behaviour for market `"S&P 500"` — in particular no
no-data-for-this-market report happens as long as `SP500_data` exists. -/
theorem unknown_market_fallback (fs : String → Option (List (String × List RawRow)))
    (cutoff : Nat) (market : Option String)
    (h : ∀ p ∈ market_dirs, some p.1 ≠ market) :
    marketSubdir market = "SP500_data"
    ∧ BrokerAgent.answer fs cutoff market
      = BrokerAgent.answer fs cutoff (some "S&P 500") := by
  have hsub : marketSubdir market = "SP500_data" := by
    cases market with
    | none => rfl
    | some s =>
      have hlook : market_dirs.lookup s = none :=
        lookup_eq_none_of_forall_ne market_dirs s
          fun p hp heq => h p hp (by rw [heq])
      simp [marketSubdir, hlook]
  refine ⟨hsub, ?_⟩
  have hsp : marketSubdir (some "S&P 500") = "SP500_data" := by decide
  simp only [BrokerAgent.answer, hsub, hsp]

/-- C10 witness: the unknown market "FTSE" behaves exactly like "S&P 500". -/
theorem unknown_market_fallback_witness :
    marketSubdir (some "FTSE") = "SP500_data"
    ∧ BrokerAgent.answer (fun _ => none) 0 (some "FTSE")
      = BrokerAgent.answer (fun _ => none) 0 (some "S&P 500") :=
  unknown_market_fallback (fun _ => none) 0 (some "FTSE") (by decide)

/-! ### src/agent/stock_agent.py -/

/-- The opening curly brace character. -/
def braceOpen : Char := Char.ofNat 123

/-- The closing curly brace character. -/
def braceClose : Char := Char.ofNat 125

/-- The double-quote character. -/
def quoteDouble : Char := Char.ofNat 34

/-- The single-quote character. -/
def quoteSingle : Char := Char.ofNat 39

/-- Helper for Python str.find: first index of `c`, else −1. -/
def pyFindAux (c : Char) : List Char → Nat → Int
  | [], _ => -1
  | x :: xs, i => if x = c then (i : Int) else pyFindAux c xs (i + 1)

/-- Python `s.find(c)`. -/
def pyFind (s : List Char) (c : Char) : Int := pyFindAux c s 0

/-- Helper for Python str.rfind: running last index of `c`. -/
def pyRFindAux (c : Char) : List Char → Nat → Int → Int
  | [], _, best => best
  | x :: xs, i, best => pyRFindAux c xs (i + 1) (if x = c then (i : Int) else best)

/-- Python `s.rfind(c)`: last index of `c`, else −1. -/
def pyRFind (s : List Char) (c : Char) : Int := pyRFindAux c s 0 (-1)

/-- Normalize one Python slice endpoint: negative indices count from the end
and both ends clamp to the string. -/
def pySliceIndex (n : Nat) (i : Int) : Nat :=
  if i < 0 then (i + n).toNat else min i.toNat n

/-- Python `s[a:b]` (step 1). -/
def pySlice (s : List Char) (a b : Int) : List Char :=
  let n := s.length
  (s.take (pySliceIndex n b)).drop (pySliceIndex n a)

/-- A JSON scalar as it appears in the flat decision objects: a string or an
integer (the only value shapes the decision protocol of
src/agent/stock_agent.py uses). -/
inductive JVal where
  | jstr (s : String)
  | jnum (n : Int)
deriving DecidableEq

/-- Skip the JSON whitespace characters. -/
def skipWs : List Char → List Char
  | [] => []
  | c :: cs => if c.isWhitespace then skipWs cs else c :: cs

/-- Read a JSON string body up to its closing double quote (escape sequences
are not modelled; no claim input contains one). -/
def takeStringChars : List Char → Option (List Char × List Char)
  | [] => none
  | c :: cs =>
    if c = quoteDouble then some ([], cs)
    else
      match takeStringChars cs with
      | some (str, rest) => some (c :: str, rest)
      | none => none

/-- Read a maximal run of decimal digits. -/
def takeDigits : List Char → List Char × List Char
  | [] => ([], [])
  | c :: cs =>
    if c.isDigit then
      let (ds, rest) := takeDigits cs
      (c :: ds, rest)
    else ([], c :: cs)

/-- Decimal value of a digit run. -/
def digitsVal (l : List Char) : Nat :=
  l.foldl (fun acc c => acc * 10 + (c.toNat - 48)) 0

/-- Parse a JSON integer (optional leading minus). -/
def parseNum : List Char → Option (Int × List Char)
  | [] => none
  | c :: cs =>
    if c = '-' then
      let (ds, rest) := takeDigits cs
      if ds.isEmpty then none else some (-(digitsVal ds : Int), rest)
    else
      let (ds, rest) := takeDigits (c :: cs)
      if ds.isEmpty then none else some ((digitsVal ds : Int), rest)

/-- Parse a JSON scalar value (string or integer). -/
def parseValue (cs : List Char) : Option (JVal × List Char) :=
  match skipWs cs with
  | [] => none
  | c :: rest =>
    if c = quoteDouble then
      match takeStringChars rest with
      | some (str, rest') => some (.jstr (String.mk str), rest')
      | none => none
    else
      match parseNum (c :: rest) with
      | some (n, rest') => some (.jnum n, rest')
      | none => none

/-- Parse the members of a JSON object after its opening brace, consuming the
closing brace.  Fuel bounds the recursion by the input length. -/
def parseMembers : Nat → List Char → Option (List (String × JVal) × List Char)
  | 0, _ => none
  | fuel + 1, cs =>
    match skipWs cs with
    | [] => none
    | c :: rest =>
      if c = quoteDouble then
        match takeStringChars rest with
        | some (key, rest₁) =>
          match skipWs rest₁ with
          | [] => none
          | c₂ :: rest₃ =>
            if c₂ = ':' then
              match parseValue rest₃ with
              | some (v, rest₄) =>
                match skipWs rest₄ with
                | [] => none
                | c₃ :: rest₆ =>
                  if c₃ = ',' then
                    match parseMembers fuel rest₆ with
                    | some (ms, rest₇) => some ((String.mk key, v) :: ms, rest₇)
                    | none => none
                  else if c₃ = braceClose then
                    some ([(String.mk key, v)], rest₆)
                  else none
              | none => none
            else none
        | none => none
      else none

/-- Python `json.loads`, modelled for flat objects of string keys and
string/integer values — the decision-object grammar of
src/agent/stock_agent.py.  Inputs outside this fragment (nesting, floats,
booleans) are parse errors here; no claim exercises them. -/
def jsonLoads (s : String) : Except String (List (String × JVal)) :=
  match skipWs s.toList with
  | [] => .error "Expecting value"
  | c :: rest =>
    if c = braceOpen then
      match skipWs rest with
      | [] => .error "Expecting property name"
      | c₂ :: rest₂ =>
        if c₂ = braceClose then
          if (skipWs rest₂).isEmpty then .ok [] else .error "Extra data"
        else
          match parseMembers (rest.length + 1) (c₂ :: rest₂) with
          | some (ms, rest₃) =>
            if (skipWs rest₃).isEmpty then .ok ms else .error "Extra data"
          | none => .error "Invalid decision object"
    else .error "Expecting value"

/-- The `rag_response[start:end]` slice of `StockAgent.get_decision`:
from the first opening brace to the last closing brace inclusive. -/
def decisionJsonStr (rag_response : String) : String :=
  let cs := rag_response.toList
  let start := pyFind cs braceOpen
  let stop := pyRFind cs braceClose + 1
  String.mk (pySlice cs start stop)

/-- `json_str.replace("'", '"')` of `StockAgent.get_decision`. -/
def normalizeQuotes (s : String) : String :=
  String.mk (s.toList.map fun c => if c = quoteSingle then quoteDouble else c)

/-- The parsing half of `StockAgent.get_decision` from
src/agent/stock_agent.py, applied to the text that `query_rag` returned:
extract the brace-delimited substring, normalize quotes, parse JSON; any
failure produces the hold fallback with the diagnostic reason and the raw
response. -/
def StockAgent.get_decision (rag_response : String) : List (String × JVal) :=
  match jsonLoads (normalizeQuotes (decisionJsonStr rag_response)) with
  | .ok d => d
  | .error e =>
    [("action", .jstr "hold"),
     ("reason", .jstr ("Failed to parse decision: " ++ e)),
     ("raw_response", .jstr rag_response)]

/-- C3: the decision parser never raises past its boundary — on any parse
failure it returns the fallback decision whose action is hold, whose
raw-response field is the original input, and whose reason names the parse
failure. -/
theorem parse_failure_fallback (resp e : String)
    (h : jsonLoads (normalizeQuotes (decisionJsonStr resp)) = .error e) :
    (StockAgent.get_decision resp).lookup "action" = some (.jstr "hold")
    ∧ (StockAgent.get_decision resp).lookup "raw_response" = some (.jstr resp)
    ∧ ∃ cause, (StockAgent.get_decision resp).lookup "reason"
        = some (.jstr ("Failed to parse decision: " ++ cause)) := by
  simp only [StockAgent.get_decision, h]
  exact ⟨rfl, rfl, e, rfl⟩

/-- C3 witness: a response without any brace pair falls back to hold and
carries the original text. -/
theorem parse_failure_fallback_witness :
    (StockAgent.get_decision "no json here").lookup "action"
      = some (.jstr "hold")
    ∧ (StockAgent.get_decision "no json here").lookup "raw_response"
      = some (.jstr "no json here") :=
  ⟨(parse_failure_fallback "no json here" "Expecting value" rfl).1,
   (parse_failure_fallback "no json here" "Expecting value" rfl).2.1⟩

/-- A single-quote character as a one-character string, for building the C6
model response. -/
def sqStr : String := String.singleton quoteSingle

/-- The single-quoted decision object of the round-trip example, exactly as a
model would emit it:
`\x7b'action': 'buy', 'symbol': 'AAPL', 'amount': 10, 'reason': 'x'\x7d`. -/
def roundTripResponse : String :=
  String.singleton braceOpen
    ++ sqStr ++ "action" ++ sqStr ++ ": " ++ sqStr ++ "buy" ++ sqStr ++ ", "
    ++ sqStr ++ "symbol" ++ sqStr ++ ": " ++ sqStr ++ "AAPL" ++ sqStr ++ ", "
    ++ sqStr ++ "amount" ++ sqStr ++ ": 10, "
    ++ sqStr ++ "reason" ++ sqStr ++ ": " ++ sqStr ++ "x" ++ sqStr
    ++ String.singleton braceClose

/-- C6: parsing the single-quoted decision object round-trips — the first
brace to the last brace are kept, single quotes become double quotes, and the
parsed decision carries action buy, symbol AAPL and amount 10. -/
theorem decision_round_trip :
    (StockAgent.get_decision roundTripResponse).lookup "action"
      = some (.jstr "buy")
    ∧ (StockAgent.get_decision roundTripResponse).lookup "symbol"
      = some (.jstr "AAPL")
    ∧ (StockAgent.get_decision roundTripResponse).lookup "amount"
      = some (.jnum 10) := by
  exact ⟨rfl, rfl, rfl⟩

/-- Python str() rendering of a parsed JSON scalar, as an f-string would
show it. -/
def renderJVal : JVal → String
  | .jstr s => s
  | .jnum n => toString n

/-- `decision.get("action") in ["buy", "sell"]` from
src/agent/stock_agent.py. -/
def tradeActionOk (d : List (String × JVal)) : Bool :=
  match d.lookup "action" with
  | some (.jstr a) => (a == "buy") || (a == "sell")
  | _ => false

/-- The acknowledgment record `StockAgent.place_order` returns. -/
structure OrderResult where
  status : String
  order : List (String × JVal)
  message : String
deriving DecidableEq

/-- `StockAgent.place_order` from src/agent/stock_agent.py: a mock broker
call; buy/sell with symbol and amount present acknowledges success, anything
else is no_action carrying the decision reason (or a default message). -/
def StockAgent.place_order (decision : List (String × JVal)) : OrderResult :=
  if tradeActionOk decision && (decision.lookup "symbol").isSome
      && (decision.lookup "amount").isSome then
    { status := "success"
      order := decision
      message := "Order placed: "
        ++ ((decision.lookup "action").map renderJVal).getD "" ++ " "
        ++ ((decision.lookup "amount").map renderJVal).getD "" ++ " shares of "
        ++ ((decision.lookup "symbol").map renderJVal).getD "" }
  else
    { status := "no_action"
      order := decision
      message := ((decision.lookup "reason").map renderJVal).getD
        "No valid action taken." }

/-- C5: the order is a success acknowledgment exactly when the action is buy
or sell and both symbol and amount are present; otherwise it is a no_action
record whose message is the decision reason when present and the default
message otherwise. -/
theorem place_order_spec (d : List (String × JVal)) :
    ((StockAgent.place_order d).status = "success"
      ↔ (tradeActionOk d ∧ (d.lookup "symbol").isSome
          ∧ (d.lookup "amount").isSome))
    ∧ (¬(tradeActionOk d ∧ (d.lookup "symbol").isSome
          ∧ (d.lookup "amount").isSome) →
        (StockAgent.place_order d).status = "no_action"
        ∧ (∀ r : String, d.lookup "reason" = some (.jstr r) →
            (StockAgent.place_order d).message = r)
        ∧ (d.lookup "reason" = none →
            (StockAgent.place_order d).message = "No valid action taken.")) := by
  by_cases hb : (tradeActionOk d && (d.lookup "symbol").isSome
      && (d.lookup "amount").isSome) = true
  · have hp : tradeActionOk d ∧ (d.lookup "symbol").isSome
        ∧ (d.lookup "amount").isSome := by
      simpa [Bool.and_eq_true, and_assoc] using hb
    refine ⟨⟨fun _ => hp, fun _ => ?_⟩, fun hnot => absurd hp hnot⟩
    simp [StockAgent.place_order, hb]
  · have hstat : (StockAgent.place_order d).status = "no_action" := by
      simp only [StockAgent.place_order, if_neg hb]
    refine ⟨⟨fun hsucc => ?_, fun hp => ?_⟩, fun _ => ⟨hstat, ?_, ?_⟩⟩
    · rw [hstat] at hsucc
      exact absurd hsucc (by decide)
    · exact absurd (by simpa [Bool.and_eq_true, and_assoc] using hp) hb
    · intro r hr
      simp [StockAgent.place_order, if_neg hb, hr, renderJVal]
    · intro hr
      simp [StockAgent.place_order, if_neg hb, hr]

/-- C5 witness: the decision holding with reason Insufficient data yields a
no_action result whose message equals that reason. -/
theorem place_order_spec_witness :
    (StockAgent.place_order
        [("action", .jstr "hold"), ("reason", .jstr "Insufficient data")]).status
      = "no_action"
    ∧ (StockAgent.place_order
        [("action", .jstr "hold"), ("reason", .jstr "Insufficient data")]).message
      = "Insufficient data" := by
  have h := (place_order_spec
    [("action", .jstr "hold"), ("reason", .jstr "Insufficient data")]).2
    (by decide)
  exact ⟨h.1, h.2.1 "Insufficient data" (by decide)⟩

/-! ### src/app/embedding_model.py -/

/-- A machine-float vector entry as the embedding provider may return it:
finite, or one of the non-finite IEEE values. -/
inductive FloatVal where
  | finite (q : ℚ)
  | nan
  | posInf
  | negInf
deriving DecidableEq

/-- What `collection.query` hands back. -/
structure StoreRaw where
  documents : List (List String)
  distances : List (List ℚ)
deriving DecidableEq

/-- The record `query_embedding` returns (timing fields omitted). -/
structure QEResult where
  documents : List (List String)
  distances : List (List ℚ)
  embedding_dimensions : Nat
  embedding_model : String
deriving DecidableEq

/-- `query_embedding` from src/app/embedding_model.py: encode the question,
query the store, attach metadata.  The sentence-transformer is `embed`, the
chroma collection is `storeQuery`.  The source contains no branch examining
the vector: whatever `embed` produced is handed to `storeQuery` as-is. -/
def query_embedding (embed : String → List FloatVal)
    (storeQuery : List FloatVal → Nat → StoreRaw)
    (question : String) (k : Nat) : QEResult :=
  let q_embed := embed question
  let results := storeQuery q_embed k
  { documents := results.documents
    distances := results.distances
    embedding_dimensions := q_embed.length
    embedding_model := "all-MiniLM-L6-v2" }

/-- A probe store that records whether the exact one-entry NaN vector reached
the similarity search. -/
def nanProbeStore : List FloatVal → Nat → StoreRaw :=
  fun v _ =>
    ⟨[[if v = [FloatVal.nan] then "nan vector reached the store" else "ok"]],
     [[0]]⟩

/-- C8 counterexample: an embedding provider returning the malformed
one-dimensional vector [NaN] does NOT make the query-embedding step fail —
`query_embedding` returns a normal result and the non-finite vector flows
unchanged into the similarity search (the probe store observed it). -/
theorem no_embedding_validation_counterexample :
    query_embedding (fun _ => [FloatVal.nan]) nanProbeStore "q" 3
      = { documents := [["nan vector reached the store"]]
          distances := [[0]]
          embedding_dimensions := 1
          embedding_model := "all-MiniLM-L6-v2" } := by
  rfl

/-- C8 amended: `query_embedding` performs no validation at all — for every
provider output, including wrong-dimension or non-finite vectors, the result
is exactly the store response to the raw vector plus metadata; no
EmbeddingError path exists. -/
theorem query_embedding_no_validation (embed : String → List FloatVal)
    (storeQuery : List FloatVal → Nat → StoreRaw) (question : String)
    (k : Nat) :
    query_embedding embed storeQuery question k
      = { documents := (storeQuery (embed question) k).documents
          distances := (storeQuery (embed question) k).distances
          embedding_dimensions := (embed question).length
          embedding_model := "all-MiniLM-L6-v2" } := by
  rfl
